import Mathlib

/-!
Shallow embedding of `src/libflatpak_query.py` (flatshop): the AppStream
catalog indexing and search engine.

Modelling conventions, stated once:

* Python strings are Lean `String`; `str.lower()` is `pyLower` (per-character
  ASCII lowering, matching CPython on the ASCII identifiers and text the
  program handles); the Python substring test `a in b` is `pyIn a b`.
* A Python `dict[str, list[...]]` (insertion ordered, unique keys) is an
  association list `List (String × ...)`; insertion of a fresh key appends at
  the end, value update (`dictReplace`) rewrites the entry in place, and
  iteration over `.keys()` walks the list front to back.
* GObject collaborators are replaced by plain data: a `Flatpak.Remote` carries
  its name, disabled flag, appstream directory path and the state of the file
  `<appstream dir>/appstream.xml.gz` (`missing`, `corrupt`, or a parsed
  component list); `AppStream.Metadata.parse_file` raising `GLib.Error` on a
  corrupt file is `Except.error ()`.
* In-place mutation (`self.installed.extend`, `self.remotes[...] = ...`,
  `package.match = found`) is explicit state passing: each stateful operation
  returns the updated `AppstreamSearcher`.  A Python exception escaping an
  operation is recorded in the `failed` flag of `StepResult` together with the
  state already mutated when it was raised.
* `AppStream.Component` fields not consulted by any operation modelled here
  (icons, urls, developer, categories, description) are omitted from the
  `Component` record; the fields that drive behaviour (kind, id, name,
  summary, flatpak bundle id, releases) are kept.
-/

namespace FlatpakQuery

/-- Per-character lowering, the model of Python `str.lower()`. -/
def pyLower (s : String) : String := ⟨s.data.map Char.toLower⟩

/-- Infix test on character lists (needle occurs contiguously in haystack). -/
def listInfix (needle haystack : List Char) : Bool :=
  if needle.isPrefixOf haystack then true
  else match haystack with
    | [] => needle.isEmpty
    | _ :: rest => listInfix needle rest

/-- The model of the Python substring test `needle in haystack`. -/
def pyIn (needle haystack : String) : Bool := listInfix needle.data haystack.data

/-- The enum `class Match(IntEnum)`: NAME = 1, ID = 2, SUMMARY = 3, NONE = 4. -/
inductive Match where
  | NAME
  | ID
  | SUMMARY
  | NONE
deriving DecidableEq, Repr

/-- The kind enum `AppStream.ComponentKind`, collapsed to the one distinction the code
makes: `DESKTOP_APP` versus everything else. -/
inductive ComponentKind where
  | DESKTOP_APP
  | OTHER
deriving DecidableEq, Repr

/-- One entry of `component.get_releases_plain()`; `get_version()` is nullable
in the GI binding, hence `Option String`. -/
structure Release where
  version : Option String
deriving DecidableEq, Repr

/-- The slice of an `AppStream.Component` the program reads. `bundle_id` is
`comp.get_bundle(AppStream.BundleKind.FLATPAK).get_id()`. -/
structure Component where
  kind : ComponentKind
  id : String
  name : String
  summary : String
  bundle_id : String
  releases : List Release
deriving DecidableEq, Repr

/-- State of the file `<appstream dir>/appstream.xml.gz` of one remote:
absent, present but unparsable (parse_file raises), or parsed components. -/
inductive AppstreamFile where
  | missing
  | corrupt
  | valid (components : List Component)
deriving DecidableEq, Repr

/-- A `Flatpak.Remote` together with its on-disk appstream state. -/
structure Remote where
  name : String
  disabled : Bool
  appstream_dir : String
  file : AppstreamFile
deriving DecidableEq, Repr

/-- A `Flatpak.Installation`: its remotes and the formatted refs returned by
`list_installed_refs_by_kind(Flatpak.RefKind.APP)`. -/
structure Installation where
  remotes : List Remote
  installed_app_refs : List String
deriving DecidableEq, Repr

/-- Constructor state of `AppStreamPackage.__init__`: keeps the component, the owning remote's
name, the flatpak bundle id, and the mutable `self.match` (initially NONE).
The Python field is named `match`, a reserved word in Lean, kept here as
`matchKind`. -/
structure AppStreamPackage where
  component : Component
  repo_name : String
  flatpak_bundle : String
  matchKind : Match
deriving DecidableEq, Repr

/-- Construction of an `AppStreamPackage` from a component and its remote. -/
def AppStreamPackage.ofComponent (comp : Component) (remote : Remote) : AppStreamPackage :=
  { component := comp
    repo_name := remote.name
    flatpak_bundle := comp.bundle_id
    matchKind := Match.NONE }

/-- Property `id`. -/
def AppStreamPackage.id (p : AppStreamPackage) : String := p.component.id

/-- Property `name`. -/
def AppStreamPackage.name (p : AppStreamPackage) : String := p.component.name

/-- Property `summary`. -/
def AppStreamPackage.summary (p : AppStreamPackage) : String := p.component.summary

/-- Property `version`: first entry of the release list when non-empty
(`releases.index_safe(0)`), its possibly-null version string; `None` when the
release list is empty. -/
def AppStreamPackage.version (p : AppStreamPackage) : Option String :=
  match p.component.releases with
  | [] => none
  | release :: _ => release.version

/-- Method `AppStreamPackage.search`: keyword against lower-cased name, then id,
then summary; first hit wins. -/
def AppStreamPackage.search (p : AppStreamPackage) (keyword : String) : Match :=
  if pyIn keyword (pyLower p.name) then Match.NAME
  else if pyIn keyword (pyLower p.id) then Match.ID
  else if pyIn keyword (pyLower p.summary) then Match.SUMMARY
  else Match.NONE

/-- State of `AppstreamSearcher.__init__`: `self.remotes` (dict as ordered
association list with unique keys) and `self.installed`. -/
structure AppstreamSearcher where
  remotes : List (String × List AppStreamPackage)
  installed : List String
deriving DecidableEq, Repr

/-- A fresh `AppstreamSearcher()`. -/
def AppstreamSearcher.new : AppstreamSearcher := { remotes := [], installed := [] }

/-- Dict read `self.remotes[name]` / membership test, as an option. -/
def dictLookup (key : String) : List (String × List AppStreamPackage) → Option (List AppStreamPackage)
  | [] => none
  | (n, v) :: rest => if n = key then some v else dictLookup key rest

/-- Dict value update for an existing key: the entry keeps its position. -/
def dictReplace (key : String) (value : List AppStreamPackage) :
    List (String × List AppStreamPackage) → List (String × List AppStreamPackage)
  | [] => []
  | (n, v) :: rest =>
    if n = key then (n, value) :: rest else (n, v) :: dictReplace key value rest

/-- The component loop of `_load_appstream_metadata`: keep desktop apps whose
flatpak bundle id is not in `installed`, in catalog order. -/
def loadPackages (installed : List String) (remote : Remote) :
    List Component → List AppStreamPackage
  | [] => []
  | component :: rest =>
    if component.kind = ComponentKind.DESKTOP_APP then
      if component.bundle_id ∈ installed then loadPackages installed remote rest
      else AppStreamPackage.ofComponent component remote :: loadPackages installed remote rest
    else loadPackages installed remote rest

/-- Method `AppstreamSearcher._load_appstream_metadata`: missing file yields `[]`
plus a debug log line; a corrupt file makes `parse_file` raise
(`Except.error`); a parsed file yields the filtered packages. -/
def _load_appstream_metadata (s : AppstreamSearcher) (remote : Remote) :
    Except Unit (List AppStreamPackage × List String) :=
  match remote.file with
  | AppstreamFile.missing =>
    Except.ok ([], ["AppStream file not found: " ++ remote.appstream_dir ++ "/appstream.xml.gz"])
  | AppstreamFile.corrupt => Except.error ()
  | AppstreamFile.valid components =>
    Except.ok (loadPackages s.installed remote components, [])

/-- Outcome of a stateful searcher operation: the searcher as mutated so far,
the debug lines emitted, and whether an exception escaped the call. -/
structure StepResult where
  searcher : AppstreamSearcher
  logs : List String
  failed : Bool
deriving DecidableEq, Repr

/-- Method `AppstreamSearcher.add_remote`: unconditionally extend `self.installed`
with the installation's formatted app refs, then load and store the remote's
packages only when its name is not yet a key of `self.remotes`. -/
def add_remote (s : AppstreamSearcher) (remote : Remote) (inst : Installation) : StepResult :=
  let s1 : AppstreamSearcher := { s with installed := s.installed ++ inst.installed_app_refs }
  if (dictLookup remote.name s1.remotes).isSome then
    { searcher := s1, logs := [], failed := false }
  else
    match _load_appstream_metadata s1 remote with
    | Except.error _ => { searcher := s1, logs := [], failed := true }
    | Except.ok (packages, logs) =>
      { searcher := { s1 with remotes := s1.remotes ++ [(remote.name, packages)] }
        logs := logs
        failed := false }

/-- The remote loop of `add_installation`: enabled remotes are added in
order; an exception escaping `add_remote` aborts the loop (there is no
try/except in the source), leaving the state mutated so far. -/
def add_installation_go (s : AppstreamSearcher) (inst : Installation) (logs : List String) :
    List Remote → StepResult
  | [] => { searcher := s, logs := logs, failed := false }
  | remote :: rest =>
    if remote.disabled then add_installation_go s inst logs rest
    else
      let r := add_remote s remote inst
      if r.failed then { searcher := r.searcher, logs := logs ++ r.logs, failed := true }
      else add_installation_go r.searcher inst (logs ++ r.logs) rest

/-- Method `AppstreamSearcher.add_installation`. -/
def add_installation (s : AppstreamSearcher) (inst : Installation) : StepResult :=
  add_installation_go s inst [] inst.remotes

/-- Effect of one search on one stored package: `package.match = found` is
executed exactly when `found != Match.NONE`. -/
def matchUpdate (keyword : String) (p : AppStreamPackage) : AppStreamPackage :=
  let found := p.search keyword
  if found = Match.NONE then p else { p with matchKind := found }

/-- The package loop of `search_flatpak_repo`: first component is the stored
list after the in-place `package.match` mutations, second the appended
`search_results`. -/
def scanPackages (keyword : String) :
    List AppStreamPackage → List AppStreamPackage × List AppStreamPackage
  | [] => ([], [])
  | package :: rest =>
    let found := package.search keyword
    let r := scanPackages keyword rest
    if found = Match.NONE then (package :: r.1, r.2)
    else ({ package with matchKind := found } :: r.1, { package with matchKind := found } :: r.2)

/-- Method `AppstreamSearcher.search_flatpak_repo`: `self.remotes[repo_name]` raises
`KeyError` (`Except.error`) for an unknown key; otherwise scan the stored
list, mutating matches in place. -/
def search_flatpak_repo (s : AppstreamSearcher) (keyword : String) (repo_name : String) :
    Except Unit (AppstreamSearcher × List AppStreamPackage) :=
  match dictLookup repo_name s.remotes with
  | none => Except.error ()
  | some packages =>
    let scanned := scanPackages keyword packages
    Except.ok ({ s with remotes := dictReplace repo_name scanned.1 s.remotes }, scanned.2)

/-- The all-repositories branch of `search_flatpak`: iterate
`self.remotes.keys()` in insertion order, scanning each stored list and
appending its results.  On the unique-keyed dict this is exactly the fold of
`search_flatpak_repo` over the keys. -/
def searchAllRemotes (keyword : String) :
    List (String × List AppStreamPackage) →
      List (String × List AppStreamPackage) × List AppStreamPackage
  | [] => ([], [])
  | (n, packages) :: rest =>
    let scanned := scanPackages keyword packages
    let r := searchAllRemotes keyword rest
    ((n, scanned.1) :: r.1, scanned.2 ++ r.2)

/-- Method `AppstreamSearcher.search_flatpak`: lower-case the keyword once; the
Python truthiness test `if repo_name:` sends both `None` and the empty
string to the all-repositories branch. -/
def search_flatpak (s : AppstreamSearcher) (keyword : String)
    (repo_name : Option String := none) :
    Except Unit (AppstreamSearcher × List AppStreamPackage) :=
  let kw := pyLower keyword
  match repo_name with
  | some r =>
    if r = "" then
      let scanned := searchAllRemotes kw s.remotes
      Except.ok ({ s with remotes := scanned.1 }, scanned.2)
    else search_flatpak_repo s kw r
  | none =>
    let scanned := searchAllRemotes kw s.remotes
    Except.ok ({ s with remotes := scanned.1 }, scanned.2)

/-- A package with its mutable classification erased: everything `search`
can never change. -/
def stripMatch (p : AppStreamPackage) : AppStreamPackage :=
  { p with matchKind := Match.NONE }

/-- Index well-formedness: every stored package carries the name of the
repository list it sits in.  It holds for every searcher built by
`add_remote` / `add_installation` (see the preservation lemmas below). -/
def goodIndex (s : AppstreamSearcher) : Prop :=
  ∀ e ∈ s.remotes, ∀ p ∈ e.2, p.repo_name = e.1

/-! Concrete fixtures used by witnesses and counterexamples. -/

/-- A desktop application taken from the spec's worked example. -/
def lutrisComponent : Component :=
  { kind := ComponentKind.DESKTOP_APP
    id := "net.lutris.Lutris"
    name := "Lutris Games"
    summary := "gaming platform"
    bundle_id := "app/net.lutris.Lutris/x86_64/stable"
    releases := [{ version := some "0.5.17" }] }

/-- A second desktop application, with no release metadata. -/
def steamComponent : Component :=
  { kind := ComponentKind.DESKTOP_APP
    id := "com.valvesoftware.Steam"
    name := "Steam"
    summary := "launcher for games"
    bundle_id := "app/com.valvesoftware.Steam/x86_64/stable"
    releases := [] }

/-- A non-desktop component (`ComponentKind` other than `DESKTOP_APP`). -/
def runtimeComponent : Component :=
  { kind := ComponentKind.OTHER
    id := "org.freedesktop.Platform"
    name := "Freedesktop Platform"
    summary := "shared runtime"
    bundle_id := "runtime/org.freedesktop.Platform/x86_64/24.08"
    releases := [] }

/-- A component whose first release carries an empty version string. -/
def emptyVersionComponent : Component :=
  { kind := ComponentKind.DESKTOP_APP
    id := "org.example.Blank"
    name := "Blank"
    summary := "has a release with empty version"
    bundle_id := "app/org.example.Blank/x86_64/stable"
    releases := [{ version := some "" }] }

/-- An enabled remote with a parsed catalog of three components. -/
def flathubRemote : Remote :=
  { name := "flathub", disabled := false
    appstream_dir := "/var/lib/flatpak/appstream/flathub/x86_64/active"
    file := AppstreamFile.valid [lutrisComponent, steamComponent, runtimeComponent] }

/-- An enabled remote with no cached appstream file. -/
def fedoraRemote : Remote :=
  { name := "fedora", disabled := false
    appstream_dir := "/var/lib/flatpak/appstream/fedora/x86_64/active"
    file := AppstreamFile.missing }

/-- An enabled remote whose appstream file fails to parse. -/
def brokenRemote : Remote :=
  { name := "broken", disabled := false
    appstream_dir := "/var/lib/flatpak/appstream/broken/x86_64/active"
    file := AppstreamFile.corrupt }

/-- An installation where Steam is already installed. -/
def steamInstallation : Installation :=
  { remotes := [flathubRemote]
    installed_app_refs := ["app/com.valvesoftware.Steam/x86_64/stable"] }

/-- An installation with a missing-catalog remote followed by a valid one. -/
def twoRepoInstallation : Installation :=
  { remotes := [fedoraRemote, flathubRemote], installed_app_refs := [] }

/-- An installation with a corrupt-catalog remote followed by a valid one. -/
def brokenFirstInstallation : Installation :=
  { remotes := [brokenRemote, flathubRemote], installed_app_refs := [] }

/-- The record the loader builds for Lutris from `flathubRemote`. -/
def lutrisPkg : AppStreamPackage := AppStreamPackage.ofComponent lutrisComponent flathubRemote

/-- The record the loader builds for Steam from `flathubRemote`. -/
def steamPkg : AppStreamPackage := AppStreamPackage.ofComponent steamComponent flathubRemote

/-- A searcher holding flathub only, loaded with Steam already installed. -/
def flathubSearcher : AppstreamSearcher :=
  (add_remote AppstreamSearcher.new flathubRemote steamInstallation).searcher

/-- A searcher holding fedora (empty list) then flathub (Lutris and Steam). -/
def twoRepoSearcher : AppstreamSearcher :=
  (add_installation AppstreamSearcher.new twoRepoInstallation).searcher

/-- Classified results of searching "games" over `twoRepoSearcher`. -/
def gamesResults : List AppStreamPackage :=
  [{ lutrisPkg with matchKind := Match.NAME }, { steamPkg with matchKind := Match.SUMMARY }]

/-- The searcher state after that search (match fields written back). -/
def gamesSearcher : AppstreamSearcher :=
  { remotes := [("fedora", []), ("flathub", gamesResults)], installed := [] }

/-- A record whose first release has an empty version string. -/
def blankPkg : AppStreamPackage :=
  AppStreamPackage.ofComponent emptyVersionComponent flathubRemote

/-! Helper lemmas. -/

/-- Reading only the component, `search` gives the same result after the
`matchKind` field is rewritten. -/
theorem search_set_matchKind (p : AppStreamPackage) (m : Match) (kw : String) :
    AppStreamPackage.search { p with matchKind := m } kw = p.search kw := rfl

/-- Applying `matchUpdate` never changes the result of a later `search`. -/
theorem search_matchUpdate (p : AppStreamPackage) (k1 k2 : String) :
    (matchUpdate k1 p).search k2 = p.search k2 := by
  by_cases h : p.search k1 = Match.NONE <;>
    simp [matchUpdate, h, search_set_matchKind]

/-- Applying `matchUpdate` touches only the `matchKind` field. -/
theorem stripMatch_matchUpdate (kw : String) (p : AppStreamPackage) :
    stripMatch (matchUpdate kw p) = stripMatch p := by
  by_cases h : p.search kw = Match.NONE <;> simp [matchUpdate, stripMatch, h]

/-- Applying `matchUpdate` preserves the owning repository name. -/
theorem matchUpdate_repo_name (kw : String) (p : AppStreamPackage) :
    (matchUpdate kw p).repo_name = p.repo_name := by
  by_cases h : p.search kw = Match.NONE <;> simp [matchUpdate, h]

/-- The first component of `scanPackages` is the stored list with every
package run through `matchUpdate`. -/
theorem scanPackages_fst (kw : String) (l : List AppStreamPackage) :
    (scanPackages kw l).1 = l.map (matchUpdate kw) := by
  induction l with
  | nil => rfl
  | cons p rest ih =>
    by_cases h : p.search kw = Match.NONE <;>
      simp [scanPackages, matchUpdate, h, ih]

/-- The second component of `scanPackages` is the updated list filtered to
the packages the keyword matches. -/
theorem scanPackages_snd (kw : String) (l : List AppStreamPackage) :
    (scanPackages kw l).2 =
      (l.map (matchUpdate kw)).filter (fun p => decide (p.search kw ≠ Match.NONE)) := by
  induction l with
  | nil => rfl
  | cons p rest ih =>
    by_cases h : p.search kw = Match.NONE <;>
      simp [scanPackages, matchUpdate, h, ih, List.filter_cons, search_set_matchKind]

/-- A successful dict read for a key appended to a dict not holding it. -/
theorem dictLookup_append_fresh (k : String) (v : List AppStreamPackage)
    (l : List (String × List AppStreamPackage)) (h : dictLookup k l = none) :
    dictLookup k (l ++ [(k, v)]) = some v := by
  induction l with
  | nil => simp [dictLookup]
  | cons e rest ih =>
    obtain ⟨n, w⟩ := e
    by_cases hn : n = k
    · simp [dictLookup, hn] at h
    · simp [dictLookup, hn] at h ⊢
      exact ih h

/-- Applying `dictReplace` rewrites the looked-up value. -/
theorem dictLookup_dictReplace (k : String) (v w : List AppStreamPackage)
    (l : List (String × List AppStreamPackage)) (h : dictLookup k l = some w) :
    dictLookup k (dictReplace k v l) = some v := by
  induction l with
  | nil => simp [dictLookup] at h
  | cons e rest ih =>
    obtain ⟨n, u⟩ := e
    by_cases hn : n = k
    · simp [dictLookup, dictReplace, hn]
    · simp [dictLookup, dictReplace, hn] at h ⊢
      exact ih h

/-- A successful dict read comes from an entry of the list. -/
theorem dictLookup_mem (k : String) (v : List AppStreamPackage)
    (l : List (String × List AppStreamPackage)) (h : dictLookup k l = some v) :
    (k, v) ∈ l := by
  induction l with
  | nil => simp [dictLookup] at h
  | cons e rest ih =>
    obtain ⟨n, u⟩ := e
    by_cases hn : n = k
    · simp [dictLookup, hn] at h
      exact hn ▸ h ▸ List.mem_cons_self _ _
    · simp [dictLookup, hn] at h
      exact List.mem_cons_of_mem _ (ih h)

/-- Every package the loader keeps has a bundle id outside `installed`. -/
theorem loadPackages_excludes (installed : List String) (remote : Remote)
    (comps : List Component) (p : AppStreamPackage)
    (hp : p ∈ loadPackages installed remote comps) :
    p.flatpak_bundle ∉ installed := by
  induction comps with
  | nil => simp [loadPackages] at hp
  | cons c rest ih =>
    unfold loadPackages at hp
    by_cases hk : c.kind = ComponentKind.DESKTOP_APP
    · simp only [hk, if_true] at hp
      by_cases hb : c.bundle_id ∈ installed
      · simp only [hb, if_true] at hp
        exact ih hp
      · simp only [hb, if_false] at hp
        rcases List.mem_cons.mp hp with hEq | hTail
        · subst hEq
          exact hb
        · exact ih hTail
    · simp only [hk, if_false] at hp
      exact ih hp

/-- Every package the loader keeps carries the remote's name. -/
theorem loadPackages_repo_name (installed : List String) (remote : Remote)
    (comps : List Component) (p : AppStreamPackage)
    (hp : p ∈ loadPackages installed remote comps) :
    p.repo_name = remote.name := by
  induction comps with
  | nil => simp [loadPackages] at hp
  | cons c rest ih =>
    unfold loadPackages at hp
    by_cases hk : c.kind = ComponentKind.DESKTOP_APP
    · simp only [hk, if_true] at hp
      by_cases hb : c.bundle_id ∈ installed
      · simp only [hb, if_true] at hp
        exact ih hp
      · simp only [hb, if_false] at hp
        rcases List.mem_cons.mp hp with hEq | hTail
        · subst hEq
          rfl
        · exact ih hTail
    · simp only [hk, if_false] at hp
      exact ih hp

/-- Results of one repository scan: each comes from a stored package via
`matchUpdate`. -/
theorem scanPackages_snd_mem (kw : String) (l : List AppStreamPackage)
    (p : AppStreamPackage) (hp : p ∈ (scanPackages kw l).2) :
    ∃ q ∈ l, p = matchUpdate kw q := by
  rw [scanPackages_snd] at hp
  have hp2 := List.mem_of_mem_filter hp
  obtain ⟨q, hq, rfl⟩ := List.mem_map.mp hp2
  exact ⟨q, hq, rfl⟩

/-- The global scan collects, repository by repository in index order, the
per-repository results. -/
theorem searchAllRemotes_snd (kw : String) (l : List (String × List AppStreamPackage)) :
    (searchAllRemotes kw l).2 = (l.map (fun e => (scanPackages kw e.2).2)).flatten := by
  induction l with
  | nil => rfl
  | cons e rest ih =>
    obtain ⟨n, packages⟩ := e
    simp [searchAllRemotes, ih]

/-- Up to the mutable `matchKind`, one repository's results are a sublist of
its stored list. -/
theorem scanPackages_snd_strip_sublist (kw : String) (l : List AppStreamPackage) :
    List.Sublist ((scanPackages kw l).2.map stripMatch) (l.map stripMatch) := by
  rw [scanPackages_snd]
  have h1 : List.Sublist
      (((l.map (matchUpdate kw)).filter
        (fun p => decide (p.search kw ≠ Match.NONE))).map stripMatch)
      ((l.map (matchUpdate kw)).map stripMatch) :=
    List.Sublist.map stripMatch (List.filter_sublist _)
  have h2 : (l.map (matchUpdate kw)).map stripMatch = l.map stripMatch := by
    rw [List.map_map]
    exact List.map_congr_left fun p _ => stripMatch_matchUpdate kw p
  rw [h2] at h1
  exact h1

/-- Up to `matchKind`, the global results are a sublist of the flattened
index. -/
theorem searchAllRemotes_snd_strip_sublist (kw : String)
    (l : List (String × List AppStreamPackage)) :
    List.Sublist ((searchAllRemotes kw l).2.map stripMatch)
      ((l.map (fun e => e.2.map stripMatch)).flatten) := by
  induction l with
  | nil => simp [searchAllRemotes]
  | cons e rest ih =>
    obtain ⟨n, packages⟩ := e
    simp only [searchAllRemotes, List.map_cons, List.flatten_cons, List.map_append]
    exact List.Sublist.append (scanPackages_snd_strip_sublist kw packages) ih

/-- The empty searcher is well formed. -/
theorem goodIndex_new : goodIndex AppstreamSearcher.new := by
  intro e he
  simp [AppstreamSearcher.new] at he

/-- Operation `add_remote` preserves index well-formedness. -/
theorem goodIndex_add_remote (s : AppstreamSearcher) (remote : Remote)
    (inst : Installation) (h : goodIndex s) :
    goodIndex (add_remote s remote inst).searcher := by
  unfold add_remote
  by_cases hk : (dictLookup remote.name s.remotes).isSome
  · simpa [hk] using h
  · simp only [hk, Bool.false_eq_true, if_false]
    cases hfile : remote.file with
    | missing =>
      simp only [_load_appstream_metadata, hfile]
      intro e he p hp
      rcases List.mem_append.mp he with hIn | hNew
      · exact h e hIn p hp
      · simp at hNew
        subst hNew
        simp at hp
    | corrupt =>
      simp only [_load_appstream_metadata, hfile]
      exact h
    | valid comps =>
      simp only [_load_appstream_metadata, hfile]
      intro e he p hp
      rcases List.mem_append.mp he with hIn | hNew
      · exact h e hIn p hp
      · simp at hNew
        subst hNew
        exact loadPackages_repo_name _ remote comps p hp

/-- The remote loop of `add_installation` preserves index well-formedness. -/
theorem goodIndex_add_installation_go (inst : Installation) (remotes : List Remote)
    (s : AppstreamSearcher) (logs : List String) (h : goodIndex s) :
    goodIndex (add_installation_go s inst logs remotes).searcher := by
  induction remotes generalizing s logs with
  | nil => exact h
  | cons remote rest ih =>
    unfold add_installation_go
    by_cases hd : remote.disabled
    · simp only [hd, if_true]
      exact ih s logs h
    · simp only [hd, Bool.false_eq_true, if_false]
      by_cases hf : (add_remote s remote inst).failed
      · simp only [hf, if_true]
        exact goodIndex_add_remote s remote inst h
      · simp only [hf, Bool.false_eq_true, if_false]
        exact ih _ _ (goodIndex_add_remote s remote inst h)

/-- Operation `add_installation` preserves index well-formedness, so `goodIndex` holds
of every searcher the program actually builds. -/
theorem goodIndex_add_installation (s : AppstreamSearcher) (inst : Installation)
    (h : goodIndex s) : goodIndex (add_installation s inst).searcher :=
  goodIndex_add_installation_go inst inst.remotes s [] h

/-! Claim theorems. -/

/-- C2: for every record and keyword, `search` reports NAME when the keyword
is a substring of the lower-cased name; otherwise ID when it is a substring
of the lower-cased id; otherwise SUMMARY when it is a substring of the
lower-cased summary; otherwise NONE.  Only the first matching criterion in
the order NAME > ID > SUMMARY is reported, even when later fields also
match. -/
theorem search_match_priority (p : AppStreamPackage) (keyword : String) :
    (pyIn keyword (pyLower p.name) = true → p.search keyword = Match.NAME) ∧
    (pyIn keyword (pyLower p.name) = false → pyIn keyword (pyLower p.id) = true →
      p.search keyword = Match.ID) ∧
    (pyIn keyword (pyLower p.name) = false → pyIn keyword (pyLower p.id) = false →
      pyIn keyword (pyLower p.summary) = true → p.search keyword = Match.SUMMARY) ∧
    (pyIn keyword (pyLower p.name) = false → pyIn keyword (pyLower p.id) = false →
      pyIn keyword (pyLower p.summary) = false → p.search keyword = Match.NONE) := by
  refine ⟨fun h1 => ?_, fun h1 h2 => ?_, fun h1 h2 h3 => ?_, fun h1 h2 h3 => ?_⟩ <;>
    simp [AppStreamPackage.search, *]

/-- Witness for C2 at the spec's worked example: name "Lutris Games",
id "net.lutris.Lutris", summary "gaming platform". -/
theorem search_match_priority_witness :
    lutrisPkg.search "lutris" = Match.NAME ∧
    lutrisPkg.search "net." = Match.ID ∧
    lutrisPkg.search "gaming" = Match.SUMMARY ∧
    lutrisPkg.search "zzkw" = Match.NONE :=
  ⟨(search_match_priority lutrisPkg "lutris").1 (by decide),
   (search_match_priority lutrisPkg "net.").2.1 (by decide) (by decide),
   (search_match_priority lutrisPkg "gaming").2.2.1 (by decide) (by decide) (by decide),
   (search_match_priority lutrisPkg "zzkw").2.2.2 (by decide) (by decide) (by decide)⟩

/-- C8: the public query lower-cases the keyword once, so keywords that
agree after lower-casing (case variants of each other) give identical
results, on any index state and any scope. -/
theorem search_flatpak_case_insensitive (s : AppstreamSearcher) (k1 k2 : String)
    (repo_name : Option String) (h : pyLower k1 = pyLower k2) :
    search_flatpak s k1 repo_name = search_flatpak s k2 repo_name := by
  unfold search_flatpak
  rw [h]

/-- Witness for C8: "LUTRIS" versus "lutris" on a loaded searcher. -/
theorem search_flatpak_case_insensitive_witness :
    search_flatpak flathubSearcher "LUTRIS" none =
      search_flatpak flathubSearcher "lutris" none :=
  search_flatpak_case_insensitive flathubSearcher "LUTRIS" "lutris" none (by decide)

/-- C9: `version` is the version string of the release at index 0 when the
release list is non-empty, and the distinct absent value `none` when the
list is empty — so a record with no releases is distinguishable from one
whose first release carries the empty version string. -/
theorem version_absent_vs_empty (p q : AppStreamPackage) (rel : Release)
    (rest : List Release) (hp : p.component.releases = [])
    (hq : q.component.releases = rel :: rest) (hv : rel.version = some "") :
    p.version = none ∧ q.version = some "" ∧ p.version ≠ q.version := by
  refine ⟨?_, ?_, ?_⟩ <;> simp [AppStreamPackage.version, hp, hq, hv]

/-- Witness for C9: Steam has no releases, `blankPkg` an empty version. -/
theorem version_absent_vs_empty_witness :
    steamPkg.version = none ∧ blankPkg.version = some "" ∧
    steamPkg.version ≠ blankPkg.version :=
  version_absent_vs_empty steamPkg blankPkg { version := some "" } [] rfl rfl rfl

/-- C10: a repository search rewrites each stored package through
`matchUpdate` and returns the matching ones, and `matchUpdate` mutates only
`matchKind`, only on a match: a record the current keyword does not match is
left exactly as it was (never reset to NONE), so its `matchKind` still
reports the most recent search that matched it. -/
theorem search_mutates_only_matches (s s2 : AppstreamSearcher) (kw k1 r : String)
    (pkgs res : List AppStreamPackage) (p : AppStreamPackage)
    (hlk : dictLookup r s.remotes = some pkgs)
    (h : search_flatpak_repo s kw r = Except.ok (s2, res))
    (hmiss : p.search kw = Match.NONE)
    (hhit : p.search k1 ≠ Match.NONE) :
    dictLookup r s2.remotes = some (pkgs.map (matchUpdate kw)) ∧
    stripMatch (matchUpdate kw p) = stripMatch p ∧
    matchUpdate kw p = p ∧
    p ∉ res ∧
    matchUpdate kw (matchUpdate k1 p) = matchUpdate k1 p ∧
    (matchUpdate k1 p).matchKind = p.search k1 := by
  simp only [search_flatpak_repo, hlk] at h
  rw [Except.ok.injEq, Prod.mk.injEq] at h
  obtain ⟨hs2, hres⟩ := h
  refine ⟨?_, stripMatch_matchUpdate kw p, ?_, ?_, ?_, ?_⟩
  · rw [← hs2]
    simp only
    rw [← scanPackages_fst]
    exact dictLookup_dictReplace r _ pkgs s.remotes hlk
  · simp [matchUpdate, hmiss]
  · intro hmem
    rw [← hres, scanPackages_snd] at hmem
    have hcond := List.of_mem_filter hmem
    simp only [decide_eq_true_eq] at hcond
    exact hcond hmiss
  · simp [matchUpdate, search_matchUpdate, search_set_matchKind, hmiss, hhit]
  · simp [matchUpdate, hhit]

/-- Witness for C10: on the flathub searcher, the keyword "zzkw" matches
nothing, "lutris" matched before. -/
theorem search_mutates_only_matches_witness :
    dictLookup "flathub" flathubSearcher.remotes =
      some ([lutrisPkg].map (matchUpdate "zzkw")) ∧
    stripMatch (matchUpdate "zzkw" lutrisPkg) = stripMatch lutrisPkg ∧
    matchUpdate "zzkw" lutrisPkg = lutrisPkg ∧
    lutrisPkg ∉ ([] : List AppStreamPackage) ∧
    matchUpdate "zzkw" (matchUpdate "lutris" lutrisPkg) = matchUpdate "lutris" lutrisPkg ∧
    (matchUpdate "lutris" lutrisPkg).matchKind = lutrisPkg.search "lutris" :=
  search_mutates_only_matches flathubSearcher flathubSearcher "zzkw" "lutris" "flathub"
    [lutrisPkg] [] lutrisPkg rfl rfl (by decide) (by decide)

/-- C1: every record `add_remote` stores for a freshly added repository has
a flatpak bundle id outside the installed set in effect when that
repository was loaded (`self.installed` as just extended by this call with
the installation's app refs). -/
theorem stored_records_exclude_installed (s : AppstreamSearcher) (remote : Remote)
    (inst : Installation) (pkgs : List AppStreamPackage) (p : AppStreamPackage)
    (hfresh : dictLookup remote.name s.remotes = none)
    (hstored : dictLookup remote.name (add_remote s remote inst).searcher.remotes = some pkgs)
    (hp : p ∈ pkgs) :
    p.flatpak_bundle ∉ s.installed ++ inst.installed_app_refs := by
  have hns : (dictLookup remote.name s.remotes).isSome = false := by
    rw [hfresh]; rfl
  unfold add_remote at hstored
  simp only [hns, Bool.false_eq_true, if_false] at hstored
  cases hfile : remote.file with
  | missing =>
    simp only [_load_appstream_metadata, hfile] at hstored
    rw [dictLookup_append_fresh remote.name [] s.remotes hfresh] at hstored
    injection hstored with hpk
    rw [← hpk] at hp
    simp at hp
  | corrupt =>
    simp only [_load_appstream_metadata, hfile] at hstored
    rw [hfresh] at hstored
    cases hstored
  | valid comps =>
    simp only [_load_appstream_metadata, hfile] at hstored
    rw [dictLookup_append_fresh remote.name _ s.remotes hfresh] at hstored
    injection hstored with hpk
    rw [← hpk] at hp
    exact loadPackages_excludes _ remote comps p hp

/-- Witness for C1: with Steam installed, the loaded flathub list is just
Lutris, whose bundle id is outside the installed set at load time. -/
theorem stored_records_exclude_installed_witness :
    lutrisPkg.flatpak_bundle ∉
      AppstreamSearcher.new.installed ++ steamInstallation.installed_app_refs :=
  stored_records_exclude_installed AppstreamSearcher.new flathubRemote steamInstallation
    [lutrisPkg] lutrisPkg rfl rfl (by decide)

/-- C4 counterexample: calling `add_remote` a second time with a repository
whose name is already a key is not free of observable side effects on the
searcher — `self.installed` is extended again (here it ends up holding the
Steam ref twice), so the resulting state differs from the state after one
call. -/
theorem add_remote_second_call_changes_state :
    (add_remote (add_remote AppstreamSearcher.new flathubRemote steamInstallation).searcher
        flathubRemote steamInstallation).searcher ≠
      (add_remote AppstreamSearcher.new flathubRemote steamInstallation).searcher := by
  decide

/-- C4 amended: a second `add_remote` call for an already-present repository
name leaves the stored record lists unchanged (same list as after one call,
no re-parse, no log, no failure) but still extends `installed` with the
installation's app refs — that duplication is the only side effect. -/
theorem add_remote_existing_key (s : AppstreamSearcher) (remote : Remote)
    (inst : Installation) (h : (dictLookup remote.name s.remotes).isSome = true) :
    add_remote s remote inst =
      { searcher := { s with installed := s.installed ++ inst.installed_app_refs }
        logs := [], failed := false } := by
  unfold add_remote
  simp [h]

/-- Witness for C4 amended: re-adding flathub to the flathub searcher. -/
theorem add_remote_existing_key_witness :
    add_remote flathubSearcher flathubRemote steamInstallation =
      { searcher := { flathubSearcher with
          installed := flathubSearcher.installed ++ steamInstallation.installed_app_refs }
        logs := [], failed := false } :=
  add_remote_existing_key flathubSearcher flathubRemote steamInstallation (by decide)

/-- C5 counterexample: the empty-string repository name was never added, yet
searching with it raises no lookup error — the Python truthiness test
`if repo_name:` routes `""` to the all-repositories branch, which here
returns a non-empty result list. -/
theorem search_empty_repo_name_no_error :
    dictLookup "" flathubSearcher.remotes = none ∧
    search_flatpak flathubSearcher "lutris" (some "") =
      Except.ok ({ flathubSearcher with
          remotes := [("flathub", [{ lutrisPkg with matchKind := Match.NAME }])] },
        [{ lutrisPkg with matchKind := Match.NAME }]) ∧
    (Except.ok ({ flathubSearcher with
          remotes := [("flathub", [{ lutrisPkg with matchKind := Match.NAME }])] },
        [{ lutrisPkg with matchKind := Match.NAME }]) :
      Except Unit (AppstreamSearcher × List AppStreamPackage)) ≠ Except.error () := by
  refine ⟨rfl, rfl, fun h => Except.noConfusion h⟩

/-- C5 amended: searching with a non-empty repository name that was never
added raises the lookup error, and the error carries no partial results;
the empty-string name is treated as "no repository given" and triggers a
global search instead of the error. -/
theorem search_unknown_repo_errors (s : AppstreamSearcher) (kw r : String)
    (h1 : r ≠ "") (h2 : dictLookup r s.remotes = none) :
    search_flatpak s kw (some r) = Except.error () := by
  simp [search_flatpak, search_flatpak_repo, h1, h2]

/-- Witness for C5 amended: "fedora" was never added to the flathub-only
searcher. -/
theorem search_unknown_repo_errors_witness :
    search_flatpak flathubSearcher "lutris" (some "fedora") = Except.error () :=
  search_unknown_repo_errors flathubSearcher "lutris" "fedora" (by decide) rfl

/-- C3 counterexample: with a corrupt-catalog repository enumerated first,
`add_installation` surfaces the parse failure, but the enabled sibling
"flathub" with a valid file is never attempted: nothing is stored for it in
the same session — the failure is not isolated to the one repository. -/
theorem parse_failure_aborts_sibling_load :
    (add_installation AppstreamSearcher.new brokenFirstInstallation).failed = true ∧
    dictLookup "flathub"
      (add_installation AppstreamSearcher.new brokenFirstInstallation).searcher.remotes =
      none := by
  decide

/-- C3 amended: a parse failure in one repository's metadata still surfaces
as a load failure (never swallowed), but it aborts the remote loop of
`add_installation`: nothing is stored for the failing repository and the
repositories enumerated after it are not attempted in that call — the index
is left as it was, only `installed` has been extended. -/
theorem add_installation_stops_at_parse_failure (s : AppstreamSearcher) (r : Remote)
    (rest : List Remote) (inst : Installation)
    (hd : r.disabled = false) (hc : r.file = AppstreamFile.corrupt)
    (hfresh : dictLookup r.name s.remotes = none)
    (hr : inst.remotes = r :: rest) :
    (add_installation s inst).failed = true ∧
    (add_installation s inst).searcher.remotes = s.remotes ∧
    (add_installation s inst).searcher.installed =
      s.installed ++ inst.installed_app_refs := by
  have hns : (dictLookup r.name s.remotes).isSome = false := by rw [hfresh]; rfl
  have hfail : add_remote s r inst =
      { searcher := { s with installed := s.installed ++ inst.installed_app_refs }
        logs := [], failed := true } := by
    unfold add_remote
    simp only [hns, Bool.false_eq_true, if_false, _load_appstream_metadata, hc]
  unfold add_installation
  rw [hr]
  unfold add_installation_go
  simp only [hd, Bool.false_eq_true, if_false, hfail]
  simp

/-- Witness for C3 amended, at the corrupt-first installation. -/
theorem add_installation_stops_at_parse_failure_witness :
    (add_installation AppstreamSearcher.new brokenFirstInstallation).failed = true ∧
    (add_installation AppstreamSearcher.new brokenFirstInstallation).searcher.remotes =
      AppstreamSearcher.new.remotes ∧
    (add_installation AppstreamSearcher.new brokenFirstInstallation).searcher.installed =
      AppstreamSearcher.new.installed ++ brokenFirstInstallation.installed_app_refs :=
  add_installation_stops_at_parse_failure AppstreamSearcher.new brokenRemote
    [flathubRemote] brokenFirstInstallation rfl rfl rfl rfl

/-- C7: a repository whose metadata cache has no `appstream.xml.gz` loads as
an empty record list plus a debug diagnostic instead of an error, and a
sibling repository with a valid file in the same `add_installation` call
still loads its records. -/
theorem missing_catalog_tolerated (s : AppstreamSearcher) (r1 r2 : Remote)
    (inst : Installation) (comps : List Component)
    (h0 : s.remotes = [])
    (h1 : r1.file = AppstreamFile.missing)
    (h2 : r2.file = AppstreamFile.valid comps)
    (hd1 : r1.disabled = false) (hd2 : r2.disabled = false)
    (hn : r1.name ≠ r2.name)
    (hr : inst.remotes = [r1, r2]) :
    (add_installation s inst).failed = false ∧
    (add_installation s inst).logs =
      ["AppStream file not found: " ++ r1.appstream_dir ++ "/appstream.xml.gz"] ∧
    dictLookup r1.name (add_installation s inst).searcher.remotes = some [] ∧
    dictLookup r2.name (add_installation s inst).searcher.remotes =
      some (loadPackages
        (s.installed ++ inst.installed_app_refs ++ inst.installed_app_refs) r2 comps) := by
  have e1 : add_remote s r1 inst =
      { searcher := { remotes := s.remotes ++ [(r1.name, [])],
                      installed := s.installed ++ inst.installed_app_refs },
        logs := ["AppStream file not found: " ++ r1.appstream_dir ++ "/appstream.xml.gz"],
        failed := false } := by
    have hns : (dictLookup r1.name s.remotes).isSome = false := by rw [h0]; rfl
    unfold add_remote
    simp only [hns, Bool.false_eq_true, if_false, _load_appstream_metadata, h1]
  have e2 : add_remote { remotes := s.remotes ++ [(r1.name, [])],
                         installed := s.installed ++ inst.installed_app_refs } r2 inst =
      { searcher := { remotes := (s.remotes ++ [(r1.name, [])]) ++ [(r2.name,
                        loadPackages (s.installed ++ inst.installed_app_refs ++
                          inst.installed_app_refs) r2 comps)],
                      installed := s.installed ++ inst.installed_app_refs ++
                        inst.installed_app_refs },
        logs := [], failed := false } := by
    have hl : dictLookup r2.name (s.remotes ++ [(r1.name, [])]) = none := by
      rw [h0]
      simp [dictLookup, hn]
    have hns : (dictLookup r2.name (s.remotes ++ [(r1.name, [])])).isSome = false := by
      rw [hl]; rfl
    unfold add_remote
    simp only [hns, Bool.false_eq_true, if_false, _load_appstream_metadata, h2]
  unfold add_installation
  rw [hr]
  unfold add_installation_go
  simp only [hd1, Bool.false_eq_true, if_false, e1]
  unfold add_installation_go
  simp only [hd2, Bool.false_eq_true, if_false, e2]
  unfold add_installation_go
  simp only [List.nil_append, List.append_nil]
  refine ⟨True.intro, True.intro, ?_, ?_⟩
  · rw [h0]
    simp [dictLookup]
  · rw [h0]
    simp [dictLookup, hn]

/-- Witness for C7: fedora (no cached file) followed by flathub (valid). -/
theorem missing_catalog_tolerated_witness :
    (add_installation AppstreamSearcher.new twoRepoInstallation).failed = false ∧
    (add_installation AppstreamSearcher.new twoRepoInstallation).logs =
      ["AppStream file not found: " ++ fedoraRemote.appstream_dir ++ "/appstream.xml.gz"] ∧
    dictLookup fedoraRemote.name
      (add_installation AppstreamSearcher.new twoRepoInstallation).searcher.remotes =
      some [] ∧
    dictLookup flathubRemote.name
      (add_installation AppstreamSearcher.new twoRepoInstallation).searcher.remotes =
      some (loadPackages
        (AppstreamSearcher.new.installed ++ twoRepoInstallation.installed_app_refs ++
          twoRepoInstallation.installed_app_refs)
        flathubRemote [lutrisComponent, steamComponent, runtimeComponent]) :=
  missing_catalog_tolerated AppstreamSearcher.new fedoraRemote flathubRemote
    twoRepoInstallation [lutrisComponent, steamComponent, runtimeComponent]
    rfl rfl rfl rfl rfl (by decide) rfl

/-- C6: a repository-scoped search returns only records whose `repo_name`
equals the requested name (on a well-formed index), and a global search
returns exactly the concatenation, in repository-insertion order, of each
repository's matches in that repository's stored (load) order; when the
index holds no duplicate records (up to the mutable `matchKind` field) the
global result list has no duplicates. -/
theorem search_scope_and_order (s sR sG : AppstreamSearcher) (keyword r : String)
    (resR resG : List AppStreamPackage) (p : AppStreamPackage)
    (hgood : goodIndex s) (hr : r ≠ "")
    (hR : search_flatpak s keyword (some r) = Except.ok (sR, resR))
    (hG : search_flatpak s keyword none = Except.ok (sG, resG))
    (hp : p ∈ resR)
    (hnodup : ((s.remotes.map (fun e => e.2.map stripMatch)).flatten).Nodup) :
    p.repo_name = r ∧
    resG = (s.remotes.map (fun e =>
      (e.2.map (matchUpdate (pyLower keyword))).filter
        (fun q => decide (q.search (pyLower keyword) ≠ Match.NONE)))).flatten ∧
    resG.Nodup := by
  have hR2 : search_flatpak_repo s (pyLower keyword) r = Except.ok (sR, resR) := by
    simpa [search_flatpak, hr] using hR
  have hG2 : resG = (searchAllRemotes (pyLower keyword) s.remotes).2 := by
    simp only [search_flatpak] at hG
    rw [Except.ok.injEq, Prod.mk.injEq] at hG
    exact hG.2.symm
  refine ⟨?_, ?_, ?_⟩
  · cases hlk : dictLookup r s.remotes with
    | none =>
      simp only [search_flatpak_repo, hlk] at hR2
      exact Except.noConfusion hR2
    | some pkgs =>
      have hres : resR = (scanPackages (pyLower keyword) pkgs).2 := by
        simp only [search_flatpak_repo, hlk] at hR2
        rw [Except.ok.injEq, Prod.mk.injEq] at hR2
        exact hR2.2.symm
      rw [hres] at hp
      obtain ⟨q, hq, rfl⟩ := scanPackages_snd_mem _ _ _ hp
      rw [matchUpdate_repo_name]
      exact hgood (r, pkgs) (dictLookup_mem r pkgs s.remotes hlk) q hq
  · rw [hG2, searchAllRemotes_snd]
    congr 1
    exact List.map_congr_left fun e _ => scanPackages_snd _ _
  · have hsub := searchAllRemotes_snd_strip_sublist (pyLower keyword) s.remotes
    rw [← hG2] at hsub
    exact List.Nodup.of_map stripMatch (hnodup.sublist hsub)

/-- Witness for C6 on the two-repository searcher with keyword "Games":
the scoped result's member belongs to "flathub", and the global result is
the grouped, duplicate-free concatenation. -/
theorem search_scope_and_order_witness :
    ({ lutrisPkg with matchKind := Match.NAME } : AppStreamPackage).repo_name = "flathub" ∧
    gamesResults = (twoRepoSearcher.remotes.map (fun e =>
      (e.2.map (matchUpdate (pyLower "Games"))).filter
        (fun q => decide (q.search (pyLower "Games") ≠ Match.NONE)))).flatten ∧
    gamesResults.Nodup :=
  search_scope_and_order twoRepoSearcher gamesSearcher gamesSearcher "Games" "flathub"
    gamesResults gamesResults { lutrisPkg with matchKind := Match.NAME }
    (goodIndex_add_installation AppstreamSearcher.new twoRepoInstallation goodIndex_new)
    (by decide) rfl rfl (by decide) (by decide)

end FlatpakQuery
